import Mathlib

/-!
Verification development for the flask-session repository: a shallow
embedding of `src/flask_session/sessions.py` and
`flask_session/__init__.py`, together with theorems settling the
specification claims about the session lifecycle (open/save protocol,
dirty-tracking, backend adapters, configuration resolution).
-/

/-- Python values stored inside a session mapping.  The repository treats
values as arbitrary picklable data; for the claims only equality matters,
so we embed a representative closed universe of primitives. -/
inductive PyVal where
  | none
  | bool (b : Bool)
  | int (n : Int)
  | str (s : String)
  deriving DecidableEq, Repr

/-- A Python dict of string keys, embedded as an insertion-ordered
association list (the order Python dicts preserve). -/
abbrev PyDict := List (String × PyVal)

/-- Dict lookup: `d[k]` / `d.get(k)` without the default. -/
def assocGet (d : PyDict) (k : String) : Option PyVal :=
  match d with
  | [] => Option.none
  | (k', v) :: rest => if k' = k then some v else assocGet rest k

/-- Python `d.get(k)`: returns Python `None` when the key is absent. -/
def pyGet (d : PyDict) (k : String) : PyVal :=
  (assocGet d k).getD PyVal.none

/-- Dict update `d[k] = v`: replaces in place when the key exists,
appends otherwise (Python dict insertion-order semantics). -/
def assocSet (d : PyDict) (k : String) (v : PyVal) : PyDict :=
  match d with
  | [] => [(k, v)]
  | (k', v') :: rest =>
      if k' = k then (k', v) :: rest else (k', v') :: assocSet rest k v

/-- Dict deletion `del d[k]`. -/
def assocErase (d : PyDict) (k : String) : PyDict :=
  match d with
  | [] => []
  | (k', v') :: rest =>
      if k' = k then rest else (k', v') :: assocErase rest k

/-- Key list of a dict (`d.keys()`). -/
def dictKeys (d : PyDict) : List String := d.map Prod.fst

/-- `ServerSideSession`: mapping plus sid, `permanent`, `modified` and the
`initial` deep copy captured at construction
(`sessions.py` lines 29-41). -/
structure ServerSideSession where
  data : PyDict
  sid : String
  permanent : Bool
  modified : Bool
  initial : PyDict
  deriving DecidableEq, Repr

/-- `ServerSideSession.__init__(initial, sid, permanent)`: the data is the
initial mapping (empty when absent), `self.permanent` is set only when the
`permanent` argument is truthy (otherwise it keeps its default `False`),
`modified` starts `False`, and `initial` is a deep copy of the constructor
argument (empty dict when `None`).  The `permanent` field here abstracts
Flask's `SessionMixin.permanent` property as a plain flag; the claims
whose truth depends on that property's actual dict-backed representation
(the `"_permanent"` entry stored inside the mapping) use the faithful
`ServerSideSessionDict` model defined further below instead. -/
def ServerSideSession.init (initial : Option PyDict) (sid : String)
    (permanent : Option Bool) : ServerSideSession :=
  { data := initial.getD []
    sid := sid
    permanent := permanent.getD false
    modified := false
    initial := initial.getD [] }

/-- `session[k] = v`: the `CallbackDict` `on_update` hook sets
`modified = True` on every mutation (`sessions.py` lines 33-36). -/
def ServerSideSession.setItem (s : ServerSideSession) (k : String)
    (v : PyVal) : ServerSideSession :=
  { s with data := assocSet s.data k v, modified := true }

/-- `del session[k]`: mutation, so `on_update` sets `modified = True`. -/
def ServerSideSession.delItem (s : ServerSideSession) (k : String) :
    ServerSideSession :=
  { s with data := assocErase s.data k, modified := true }

/-- `session.clear()`: mutation, so `on_update` sets `modified = True`. -/
def ServerSideSession.clear (s : ServerSideSession) : ServerSideSession :=
  { s with data := [], modified := true }

/-- Models `flask.sessions.SessionInterface.get_expiration_time` (the
external Flask base class the interface inherits): an absolute expiry
`now + permanent_session_lifetime` for a permanent session, `None`
(session-scoped cookie) otherwise. -/
def get_expiration_time (now lifetime : Nat) (s : ServerSideSession) :
    Option Nat :=
  if s.permanent then some (now + lifetime) else Option.none

/-- Errors raised by the interface layer: the `KeyError` from
`_get_signer` when no secret is configured (`sessions.py` lines 68-71,
the spec's MissingSecretError) and `itsdangerous.BadSignature`. -/
inductive SessionError where
  | missingSecretKey
  | badSignature
  deriving DecidableEq, Repr

/-- `SessionInterface._get_signer(app)`: raises when `app.secret_key` is
absent or falsy (empty string), otherwise yields a signer keyed by the
secret (`sessions.py` lines 68-71). -/
def SessionIface._get_signer (secretKey : Option String) :
    Except SessionError String :=
  match secretKey with
  | Option.none => Except.error SessionError.missingSecretKey
  | some k =>
      if k = "" then Except.error SessionError.missingSecretKey
      else Except.ok k

/-- Cookie mutations the interface applies to the outgoing response
(`response.set_cookie` / `response.delete_cookie`). -/
inductive CookieOp where
  | set (name value : String) (expires : Option Nat) (httponly : Bool)
      (domain : Option String) (path : String) (secure : Bool)
      (samesite : Option String)
  | delete (name : String) (domain : Option String) (path : String)
  deriving DecidableEq, Repr

/-- Cookie configuration drawn from the Flask app
(name/domain/path/httponly/secure/samesite). -/
structure CookieCfg where
  name : String
  domain : Option String
  path : String
  httponly : Bool
  secure : Bool
  samesite : Option String
  deriving DecidableEq, Repr

/-- `RedisSessionInterface` configuration state set by `__init__`
(`sessions.py` lines 107-116); the client handle itself is external and
modelled at each call site as a lookup function. -/
structure RedisIface where
  keyPfx : String
  use_signer : Bool
  permanent : Bool
  deriving DecidableEq, Repr

/-- `RedisSessionInterface.__init__(redis, key_prefix, use_signer,
permanent)`: records configuration and returns; it performs no secret
lookup and can raise nothing, which the `Except` result makes explicit. -/
def RedisIface.init (keyPfx : String) (use_signer permanent : Bool) :
    Except SessionError RedisIface :=
  Except.ok { keyPfx := keyPfx, use_signer := use_signer,
              permanent := permanent }

/-- `SessionInterface._unsign(app, sid)`: obtains the signer (raising
`KeyError` when no secret is configured), then verifies; `unsign` is the
abstract verification outcome supplied by the caller
(`itsdangerous.Signer.unsign`, raising `BadSignature` on failure). -/
def SessionIface._unsign (secretKey : Option String)
    (unsign : String → Option String) (token : String) :
    Except SessionError String :=
  match SessionIface._get_signer secretKey with
  | Except.error e => Except.error e
  | Except.ok _ =>
      match unsign token with
      | Option.none => Except.error SessionError.badSignature
      | some sid => Except.ok sid

/-- Result of `open_session`: the record handed to the request, together
with the list of backend keys that `redis.get` was called on. -/
structure OpenResult where
  session : ServerSideSession
  reads : List String
  deriving DecidableEq, Repr

/-- The backend-lookup tail of `open_session` (`sessions.py` lines
132-139): read `key_prefix + sid`; on a hit, deserialize and return a
loaded record, or on deserialization failure an empty record with the same
sid; on a miss, an empty record with the same sid. -/
def RedisIface.lookupSid (self : RedisIface) (sid : String)
    (store : String → Option String) (loads : String → Option PyDict) :
    OpenResult :=
  let key := self.keyPfx ++ sid
  match store key with
  | some val =>
      match loads val with
      | some data =>
          { session := ServerSideSession.init (some data) sid Option.none,
            reads := [key] }
      | Option.none =>
          { session := ServerSideSession.init Option.none sid
              (some self.permanent),
            reads := [key] }
  | Option.none =>
      { session := ServerSideSession.init Option.none sid
          (some self.permanent),
        reads := [key] }

/-- `RedisSessionInterface.open_session` (`sessions.py` lines 118-139).
`cookieVal` is the cookie's value if present; `unsign` the signature
verification outcome; `freshSid` the value `_generate_sid` would produce;
`store` the Redis `get`; `loads` the (fallible) `pickle.loads`.  A missing
or empty cookie yields a fresh empty record; a signature failure yields a
fresh empty record under a newly generated sid without touching the
backend; otherwise the backend is read and a hit that deserializes becomes
a loaded record (constructed without the `permanent` argument), while a
miss or deserialization failure yields an empty record under the same
sid. -/
def RedisIface.open_session (self : RedisIface) (cookieVal : Option String)
    (unsign : String → Option String) (freshSid : String)
    (store : String → Option String) (loads : String → Option PyDict) :
    Except SessionError OpenResult :=
  match cookieVal with
  | Option.none =>
      Except.ok { session := ServerSideSession.init Option.none freshSid
                    (some self.permanent),
                  reads := [] }
  | some sid0 =>
      if sid0 = "" then
        Except.ok { session := ServerSideSession.init Option.none freshSid
                      (some self.permanent),
                    reads := [] }
      else if self.use_signer then
        match unsign sid0 with
        | Option.none =>
            Except.ok { session := ServerSideSession.init Option.none
                          freshSid (some self.permanent),
                        reads := [] }
        | some sid => Except.ok (self.lookupSid sid store loads)
      else Except.ok (self.lookupSid sid0 store loads)

/-- Backend operations issued by the Redis adapter on save. -/
inductive RedisOp where
  | setex (key value : String) (time : Nat)
  | delete (key : String)
  deriving DecidableEq, Repr

/-- Result of a save: backend operations plus response cookie
mutations, in order. -/
structure SaveResult (op : Type) where
  backendOps : List op
  cookieOps : List CookieOp
  deriving DecidableEq, Repr

/-- `RedisSessionInterface.save_session` (`sessions.py` lines 141-186).
An empty record is deleted from the backend and its cookie expired only
when `modified`; otherwise nothing happens.  A non-empty record is always
serialized and written with `setex` under the session lifetime, and the
cookie set with the (possibly signed) sid and the expiry from
`get_expiration_time`. -/
def RedisIface.save_session (self : RedisIface) (session : ServerSideSession)
    (cookie : CookieCfg) (now lifetime : Nat) (dumps : PyDict → String)
    (sign : String → String) : SaveResult RedisOp :=
  if session.data.isEmpty then
    if session.modified then
      { backendOps := [RedisOp.delete (self.keyPfx ++ session.sid)],
        cookieOps := [CookieOp.delete cookie.name cookie.domain cookie.path] }
    else { backendOps := [], cookieOps := [] }
  else
    let expires := get_expiration_time now lifetime session
    let val := dumps session.data
    let session_id := if self.use_signer then sign session.sid else session.sid
    { backendOps := [RedisOp.setex (self.keyPfx ++ session.sid) val lifetime],
      cookieOps := [CookieOp.set cookie.name session_id expires
        cookie.httponly cookie.domain cookie.path cookie.secure
        cookie.samesite] }

/-- `MemcachedSessionInterface._get_memcache_timeout` (`sessions.py` lines
231-244): a timeout above 30 days (2592000 seconds) is converted to an
absolute Unix timestamp by adding the current time; any other timeout is
returned unchanged as a relative offset. -/
def MemcachedIface._get_memcache_timeout (now : Nat) (timeout : Int) : Int :=
  if timeout > 2592000 then timeout + now else timeout

/-- A document held by the MongoDB store: `{id, val, expiration}` as
written by `MongoDBSessionInterface.save_session` (the claims concern
documents carrying an expiration timestamp). -/
structure MongoDoc where
  id : String
  val : String
  expiration : Nat
  deriving DecidableEq, Repr

/-- Store mutations issued by the MongoDB adapter during `open_session`. -/
inductive MongoOp where
  | remove (id : String)
  deriving DecidableEq, Repr

/-- `MongoDBSessionInterface` configuration state (`sessions.py` lines
418-430). -/
structure MongoIface where
  keyPfx : String
  use_signer : Bool
  permanent : Bool
  deriving DecidableEq, Repr

/-- Result of a MongoDB `open_session`: the record plus the store
mutations performed while opening. -/
structure MongoOpenResult where
  session : ServerSideSession
  storeOps : List MongoOp
  deriving DecidableEq, Repr

/-- The lookup tail of `MongoDBSessionInterface.open_session`
(`sessions.py` lines 444-457): find the document under
`key_prefix + sid`; if found with `expiration` at or before the current
time, remove it and treat it as absent; otherwise deserialize `val` into a
loaded record, falling back to an empty record with the same sid on a
deserialization failure or a miss. -/
def MongoIface.lookupSid (self : MongoIface) (sid : String)
    (store : String → Option MongoDoc) (loads : String → Option PyDict)
    (now : Nat) : MongoOpenResult :=
  let store_id := self.keyPfx ++ sid
  match store store_id with
  | some doc =>
      if doc.expiration ≤ now then
        { session := ServerSideSession.init Option.none sid
            (some self.permanent),
          storeOps := [MongoOp.remove store_id] }
      else
        match loads doc.val with
        | some data =>
            { session := ServerSideSession.init (some data) sid Option.none,
              storeOps := [] }
        | Option.none =>
            { session := ServerSideSession.init Option.none sid
                (some self.permanent),
              storeOps := [] }
  | Option.none =>
      { session := ServerSideSession.init Option.none sid
          (some self.permanent),
        storeOps := [] }

/-- `MongoDBSessionInterface.open_session` (`sessions.py` lines 432-457):
identical cookie/signature handling to the Redis adapter, followed by the
document lookup with lazy expiry. -/
def MongoIface.open_session (self : MongoIface) (cookieVal : Option String)
    (unsign : String → Option String) (freshSid : String)
    (store : String → Option MongoDoc) (loads : String → Option PyDict)
    (now : Nat) : MongoOpenResult :=
  match cookieVal with
  | Option.none =>
      { session := ServerSideSession.init Option.none freshSid
          (some self.permanent),
        storeOps := [] }
  | some sid0 =>
      if sid0 = "" then
        { session := ServerSideSession.init Option.none freshSid
            (some self.permanent),
          storeOps := [] }
      else if self.use_signer then
        match unsign sid0 with
        | Option.none =>
            { session := ServerSideSession.init Option.none freshSid
                (some self.permanent),
              storeOps := [] }
        | some sid => self.lookupSid sid store loads now
      else self.lookupSid sid0 store loads now

/-- Statements issued against the relational database by the SqlAlchemy
adapter (ORM operations; `commit` ends the transaction). -/
inductive SqlOp where
  | updateExpiry (rowId : Nat) (expiry : Option Nat)
  | insertSessionRow (store_id : String) (expiry : Option Nat)
  | deleteDataRows (rowId : Nat) (keys : List String)
  | mergeDataRow (rowId : Nat) (key : String) (value : String)
  | deleteSessionRow (rowId : Nat)
  | commit
  deriving DecidableEq, Repr

/-- `SqlAlchemySessionInterface` configuration state (`sessions.py` lines
513-522). -/
structure SqlIface where
  keyPfx : String
  use_signer : Bool
  permanent : Bool
  deriving DecidableEq, Repr

/-- The keys removed since load: `session.initial.keys() - session.keys()`
(`sessions.py` line 613), as the set-difference of the two key sets. -/
def removedKeys (s : ServerSideSession) : List String :=
  (dictKeys s.initial).filter (fun k => ¬ k ∈ dictKeys s.data)

/-- The child-row writes of the relational save (`sessions.py` lines
614-620): every `(key, value)` of the current mapping whose value differs
from `session.initial.get(key)` is merged (upserted); unchanged pairs are
skipped.  `rowId` is the parent session row's internal id and `dumps1`
the per-value serializer. -/
def sqlDataWrites (s : ServerSideSession) (rowId : Nat)
    (dumps1 : PyVal → String) : List SqlOp :=
  s.data.filterMap (fun kv =>
    if pyGet s.initial kv.1 = kv.2 then Option.none
    else some (SqlOp.mergeDataRow rowId kv.1 (dumps1 kv.2)))

/-- `SqlAlchemySessionInterface.save_session` (`sessions.py` lines
580-635).  `saved` is the result of the opening
`query.filter_by(session_id=store_id).first()` — the existing session
row's internal id when present — and `newRowId` the id the database
assigns on insert-and-flush.  An empty record deletes the session row (if
any) and expires the cookie only when `modified`.  Otherwise the session
row's expiry is updated (or the row inserted), child rows for keys removed
since load are deleted, changed or new pairs are merged, and the
transaction is committed once, after which the cookie is set. -/
def SqlIface.save_session (self : SqlIface) (session : ServerSideSession)
    (saved : Option Nat) (newRowId : Nat) (cookie : CookieCfg)
    (now lifetime : Nat) (dumps1 : PyVal → String) (sign : String → String) :
    SaveResult SqlOp :=
  let store_id := self.keyPfx ++ session.sid
  if session.data.isEmpty then
    if session.modified then
      { backendOps :=
          (match saved with
           | some rid => [SqlOp.deleteSessionRow rid, SqlOp.commit]
           | Option.none => []),
        cookieOps := [CookieOp.delete cookie.name cookie.domain cookie.path] }
    else { backendOps := [], cookieOps := [] }
  else
    let expires := get_expiration_time now lifetime session
    let rowId := saved.getD newRowId
    let sessOps :=
      match saved with
      | some rid => [SqlOp.updateExpiry rid expires]
      | Option.none => [SqlOp.insertSessionRow store_id expires]
    let session_id := if self.use_signer then sign session.sid else session.sid
    { backendOps := sessOps
        ++ [SqlOp.deleteDataRows rowId (removedKeys session)]
        ++ sqlDataWrites session rowId dumps1
        ++ [SqlOp.commit],
      cookieOps := [CookieOp.set cookie.name session_id expires
        cookie.httponly cookie.domain cookie.path cookie.secure
        cookie.samesite] }

/-- The interface variants `Session.get_interface` can construct
(`flask_session/__init__.py` lines 68-79). -/
inductive IfaceKind where
  | redis (keyPfx : String)
  | memcached (keyPfx : String)
  | filesystem (dir : String) (threshold : Nat) (mode : Nat)
      (keyPfx : String)
  | null
  deriving DecidableEq, Repr

/-- The configuration options `Session.get_interface` reads, each `none`
when absent from `app.config` (`setdefault` supplies the default). -/
structure AppSessionConfig where
  sessionType : Option String
  sessionKeyPfx : Option String
  fileDir : Option String
  fileThreshold : Option Nat
  fileMode : Option Nat
  deriving DecidableEq, Repr

/-- `Session.get_interface` (`flask_session/__init__.py` lines 57-81):
defaults `SESSION_TYPE` to `"memcached"`, `SESSION_KEY_PREFIX` to
`"session:"`, the filesystem options to cwd-based dir, 500 and 0600, then
dispatches on `SESSION_TYPE`, falling back to the Null interface for any
unrecognized value.  `cwdDir` stands for
`os.path.join(os.getcwd(), "flask_session")`. -/
def Session.get_interface (config : AppSessionConfig) (cwdDir : String) :
    IfaceKind :=
  let stype := config.sessionType.getD "memcached"
  let pfx := config.sessionKeyPfx.getD "session:"
  if stype = "redis" then IfaceKind.redis pfx
  else if stype = "memcached" then IfaceKind.memcached pfx
  else if stype = "filesystem" then
    IfaceKind.filesystem (config.fileDir.getD cwdDir)
      (config.fileThreshold.getD 500) (config.fileMode.getD 384) pfx
  else IfaceKind.null

/-- Shared fixture: a cookie configuration used by concrete witnesses. -/
def cookieFix : CookieCfg :=
  { name := "session", domain := Option.none, path := "/", httponly := true,
    secure := false, samesite := Option.none }

/-- Shared fixture: a serializer for whole mappings. -/
def dumpsFix : PyDict → String := fun _ => "blob"

/-- Shared fixture: a per-value serializer. -/
def dumps1Fix : PyVal → String := fun _ => "vblob"

/-- Shared fixture: a signer. -/
def signFix : String → String := fun s => s ++ ".sig"

/-- C1: saving an empty record performs no backend write and emits no
cookie header when the record was never modified; when it was modified,
save deletes the backend entry `key_prefix + sid` and instructs the
response to delete (immediately expire) the cookie. -/
theorem redis_save_empty_record (self : RedisIface)
    (session : ServerSideSession) (cookie : CookieCfg) (now lifetime : Nat)
    (dumps : PyDict → String) (sign : String → String)
    (h : session.data.isEmpty = true) :
    (session.modified = false →
      self.save_session session cookie now lifetime dumps sign =
        { backendOps := [], cookieOps := [] }) ∧
    (session.modified = true →
      self.save_session session cookie now lifetime dumps sign =
        { backendOps := [RedisOp.delete (self.keyPfx ++ session.sid)],
          cookieOps :=
            [CookieOp.delete cookie.name cookie.domain cookie.path] }) := by
  unfold RedisIface.save_session
  constructor <;> intro hm <;> simp [h, hm]

/-- Witness for C1 at concrete inputs: an untouched empty record yields no
operations; a cleared (modified) empty record yields exactly one backend
delete and one cookie delete. -/
theorem redis_save_empty_record_witness :
    (RedisIface.save_session ⟨"session:", false, true⟩
        ⟨[], "abc", false, false, []⟩ cookieFix 0 60 dumpsFix signFix =
      { backendOps := [], cookieOps := [] }) ∧
    (RedisIface.save_session ⟨"session:", false, true⟩
        ⟨[], "abc", false, true, []⟩ cookieFix 0 60 dumpsFix signFix =
      { backendOps := [RedisOp.delete "session:abc"],
        cookieOps := [CookieOp.delete "session" Option.none "/"] }) :=
  ⟨(redis_save_empty_record ⟨"session:", false, true⟩
      ⟨[], "abc", false, false, []⟩ cookieFix 0 60 dumpsFix signFix rfl).1 rfl,
   (redis_save_empty_record ⟨"session:", false, true⟩
      ⟨[], "abc", false, true, []⟩ cookieFix 0 60 dumpsFix signFix rfl).2 rfl⟩

/-- C2: when signing is enabled and verification of the cookie value
fails, `open_session` returns an empty record bound to a freshly generated
sid, performs no backend read (so the record addressed by the
client-supplied sid is never loaded), produces exactly the result of the
no-cookie case, and — whenever the fresh sid differs from the supplied
one — never returns the client-supplied sid. -/
theorem redis_open_bad_signature (self : RedisIface) (sid0 freshSid : String)
    (unsign : String → Option String) (store : String → Option String)
    (loads : String → Option PyDict)
    (hsig : self.use_signer = true) (hne : sid0 ≠ "")
    (hbad : unsign sid0 = Option.none) :
    (self.open_session (some sid0) unsign freshSid store loads =
      Except.ok { session := ServerSideSession.init Option.none freshSid
                    (some self.permanent),
                  reads := [] }) ∧
    (self.open_session (some sid0) unsign freshSid store loads =
      self.open_session Option.none unsign freshSid store loads) ∧
    (freshSid ≠ sid0 → ∀ r,
      self.open_session (some sid0) unsign freshSid store loads =
        Except.ok r → r.session.sid ≠ sid0) := by
  unfold RedisIface.open_session
  refine ⟨by simp [hne, hsig, hbad], by simp [hne, hsig, hbad], ?_⟩
  intro hfresh r hr
  simp [hne, hsig, hbad] at hr
  rw [← hr]
  simpa [ServerSideSession.init] using hfresh

/-- Witness for C2 at concrete inputs: a tampered token under signing
resolves to the fresh sid with no backend reads, identically to the
no-cookie case, even though the backend holds data under the supplied
sid. -/
theorem redis_open_bad_signature_witness :
    (RedisIface.open_session ⟨"session:", true, true⟩ (some "tampered")
        (fun _ => Option.none) "fresh" (fun _ => some "blob")
        (fun _ => some [("a", PyVal.int 1)]) =
      Except.ok { session := ServerSideSession.init Option.none "fresh"
                    (some true),
                  reads := [] }) ∧
    (RedisIface.open_session ⟨"session:", true, true⟩ (some "tampered")
        (fun _ => Option.none) "fresh" (fun _ => some "blob")
        (fun _ => some [("a", PyVal.int 1)]) =
      RedisIface.open_session ⟨"session:", true, true⟩ Option.none
        (fun _ => Option.none) "fresh" (fun _ => some "blob")
        (fun _ => some [("a", PyVal.int 1)])) :=
  ⟨(redis_open_bad_signature ⟨"session:", true, true⟩ "tampered" "fresh"
      (fun _ => Option.none) (fun _ => some "blob")
      (fun _ => some [("a", PyVal.int 1)]) rfl (by decide) rfl).1,
   (redis_open_bad_signature ⟨"session:", true, true⟩ "tampered" "fresh"
      (fun _ => Option.none) (fun _ => some "blob")
      (fun _ => some [("a", PyVal.int 1)]) rfl (by decide) rfl).2.1⟩

/-- C3: when the backend lookup misses or the stored blob fails to
deserialize, `open_session` returns — as a normal value, not an error — an
empty record bound to the same sid that was looked up, both with signing
disabled and with signing enabled after a successful verification. -/
theorem redis_open_lookup_failure (self : RedisIface) (sid0 sid : String)
    (unsign : String → Option String) (store : String → Option String)
    (loads : String → Option PyDict)
    (hfail : store (self.keyPfx ++ sid) = Option.none ∨
      ∃ v, store (self.keyPfx ++ sid) = some v ∧ loads v = Option.none) :
    (self.use_signer = false → sid ≠ "" →
      self.open_session (some sid) unsign "ignored" store loads =
        Except.ok { session := ServerSideSession.init Option.none sid
                      (some self.permanent),
                    reads := [self.keyPfx ++ sid] }) ∧
    (self.use_signer = true → sid0 ≠ "" → unsign sid0 = some sid →
      self.open_session (some sid0) unsign "ignored" store loads =
        Except.ok { session := ServerSideSession.init Option.none sid
                      (some self.permanent),
                    reads := [self.keyPfx ++ sid] }) := by
  have hlook : self.lookupSid sid store loads =
      { session := ServerSideSession.init Option.none sid
          (some self.permanent),
        reads := [self.keyPfx ++ sid] } := by
    unfold RedisIface.lookupSid
    rcases hfail with hmiss | ⟨v, hhit, hbadv⟩
    · simp [hmiss]
    · simp [hhit, hbadv]
  constructor
  · intro hsig hne
    unfold RedisIface.open_session
    simp [hne, hsig, hlook]
  · intro hsig hne hun
    unfold RedisIface.open_session
    simp [hne, hsig, hun, hlook]

/-- Witness for C3 at concrete inputs: a backend miss (and, separately, a
blob that fails to deserialize) yields an empty record under the looked-up
sid, returned as a success. -/
theorem redis_open_lookup_failure_witness :
    (RedisIface.open_session ⟨"session:", false, true⟩ (some "abc")
        (fun s => some s) "ignored" (fun _ => Option.none)
        (fun _ => some []) =
      Except.ok { session := ServerSideSession.init Option.none "abc"
                    (some true),
                  reads := ["session:abc"] }) ∧
    (RedisIface.open_session ⟨"session:", false, true⟩ (some "abc")
        (fun s => some s) "ignored" (fun _ => some "corrupt")
        (fun _ => Option.none) =
      Except.ok { session := ServerSideSession.init Option.none "abc"
                    (some true),
                  reads := ["session:abc"] }) :=
  ⟨(redis_open_lookup_failure ⟨"session:", false, true⟩ "x" "abc"
      (fun s => some s) (fun _ => Option.none) (fun _ => some [])
      (Or.inl rfl)).1 rfl (by decide),
   (redis_open_lookup_failure ⟨"session:", false, true⟩ "x" "abc"
      (fun s => some s) (fun _ => some "corrupt") (fun _ => Option.none)
      (Or.inr ⟨"corrupt", rfl, rfl⟩)).1 rfl (by decide)⟩

/-- C4 counterexample: a non-empty record whose `modified` flag is false
is still written to the backend by `save_session` (the `should_set_cookie`
short-circuit is commented out in the source), so `modified` is not the
sole gate for backend I/O. -/
theorem redis_save_unmodified_writes :
    ((⟨[("a", PyVal.int 1)], "abc", false, false, [("a", PyVal.int 1)]⟩ :
        ServerSideSession).modified = false) ∧
    (RedisIface.save_session ⟨"session:", false, true⟩
        ⟨[("a", PyVal.int 1)], "abc", false, false, [("a", PyVal.int 1)]⟩
        cookieFix 0 60 dumpsFix signFix).backendOps =
      [RedisOp.setex "session:abc" (dumpsFix [("a", PyVal.int 1)]) 60] := by
  constructor
  · rfl
  · rfl

/-- C4 (amended): every mutating operation (set, delete, clear) sets the
record's `modified` flag; for an *empty* record `modified` gates the
backend I/O of save (no operation when false, a delete when true), but a
non-empty record is serialized and written on every save regardless of
`modified`. -/
theorem modified_flag_behavior (s : ServerSideSession) (k : String)
    (v : PyVal) (self : RedisIface) (cookie : CookieCfg) (now lifetime : Nat)
    (dumps : PyDict → String) (sign : String → String) :
    (s.setItem k v).modified = true ∧
    (s.delItem k).modified = true ∧
    s.clear.modified = true ∧
    (s.data.isEmpty = true → s.modified = false →
      self.save_session s cookie now lifetime dumps sign =
        { backendOps := [], cookieOps := [] }) ∧
    (s.data.isEmpty = true → s.modified = true →
      (self.save_session s cookie now lifetime dumps sign).backendOps =
        [RedisOp.delete (self.keyPfx ++ s.sid)]) ∧
    (s.data.isEmpty = false →
      (self.save_session s cookie now lifetime dumps sign).backendOps =
        [RedisOp.setex (self.keyPfx ++ s.sid) (dumps s.data) lifetime]) := by
  refine ⟨rfl, rfl, rfl, ?_, ?_, ?_⟩ <;>
    intros <;> unfold RedisIface.save_session <;> simp_all

/-- Witness for C4 (amended) at concrete inputs: setting a key marks the
record modified; an empty unmodified record saves nothing; an empty
modified record issues a backend delete; a non-empty record is written
even when unmodified. -/
theorem modified_flag_behavior_witness :
    ((⟨[], "abc", false, false, []⟩ : ServerSideSession).setItem "a"
        (PyVal.int 1)).modified = true ∧
    (RedisIface.save_session ⟨"session:", false, true⟩
        ⟨[], "abc", false, false, []⟩ cookieFix 0 60 dumpsFix signFix =
      { backendOps := [], cookieOps := [] }) ∧
    (RedisIface.save_session ⟨"session:", false, true⟩
        ⟨[], "abc", false, true, []⟩ cookieFix 0 60 dumpsFix
        signFix).backendOps = [RedisOp.delete "session:abc"] ∧
    (RedisIface.save_session ⟨"session:", false, true⟩
        ⟨[("a", PyVal.int 1)], "abc", false, false, [("a", PyVal.int 1)]⟩
        cookieFix 0 60 dumpsFix signFix).backendOps =
      [RedisOp.setex "session:abc" (dumpsFix [("a", PyVal.int 1)]) 60] :=
  ⟨(modified_flag_behavior ⟨[], "abc", false, false, []⟩ "a" (PyVal.int 1)
      ⟨"session:", false, true⟩ cookieFix 0 60 dumpsFix signFix).1,
   (modified_flag_behavior ⟨[], "abc", false, false, []⟩ "a" (PyVal.int 1)
      ⟨"session:", false, true⟩ cookieFix 0 60 dumpsFix
      signFix).2.2.2.1 rfl rfl,
   (modified_flag_behavior ⟨[], "abc", false, true, []⟩ "a" (PyVal.int 1)
      ⟨"session:", false, true⟩ cookieFix 0 60 dumpsFix
      signFix).2.2.2.2.1 rfl rfl,
   (modified_flag_behavior
      ⟨[("a", PyVal.int 1)], "abc", false, false, [("a", PyVal.int 1)]⟩
      "a" (PyVal.int 1) ⟨"session:", false, true⟩ cookieFix 0 60 dumpsFix
      signFix).2.2.2.2.2 rfl⟩

/-- In a dict with duplicate-free keys, a key determines its value. -/
theorem dict_nodup_val_eq (d : PyDict) (hnd : (dictKeys d).Nodup)
    {k : String} {v v' : PyVal} (h1 : (k, v) ∈ d) (h2 : (k, v') ∈ d) :
    v = v' := by
  induction d with
  | nil => cases h1
  | cons hd tl ih =>
    have hnd' : ¬ hd.1 ∈ dictKeys tl ∧ (dictKeys tl).Nodup := by
      simpa [dictKeys] using hnd
    rcases List.mem_cons.mp h1 with h1e | h1t
    · rcases List.mem_cons.mp h2 with h2e | h2t
      · have hvv : (k, v) = (k, v') := h1e.trans h2e.symm
        simpa using hvv
      · exfalso
        apply hnd'.1
        have hk : hd.1 = k := by rw [← h1e]
        rw [hk]
        simpa [dictKeys] using List.mem_map_of_mem Prod.fst h2t
    · rcases List.mem_cons.mp h2 with h2e | h2t
      · exfalso
        apply hnd'.1
        have hk : hd.1 = k := by rw [← h2e]
        rw [hk]
        simpa [dictKeys] using List.mem_map_of_mem Prod.fst h1t
      · exact ih hnd'.2 h1t h2t

/-- `removedKeys` is exactly the set-difference of the key sets of
`initial` and the current mapping. -/
theorem mem_removedKeys (s : ServerSideSession) (k : String) :
    k ∈ removedKeys s ↔
      (k ∈ dictKeys s.initial ∧ ¬ k ∈ dictKeys s.data) := by
  simp [removedKeys, List.mem_filter]

/-- Membership in the relational child-row writes: exactly the merges of
current pairs whose value differs from `initial.get(key)`. -/
theorem mem_sqlDataWrites (s : ServerSideSession) (rowId : Nat)
    (dumps1 : PyVal → String) (op : SqlOp) :
    op ∈ sqlDataWrites s rowId dumps1 ↔
      ∃ k v, (k, v) ∈ s.data ∧ pyGet s.initial k ≠ v ∧
        op = SqlOp.mergeDataRow rowId k (dumps1 v) := by
  simp only [sqlDataWrites, List.mem_filterMap]
  constructor
  · rintro ⟨⟨k, v⟩, hmem, hop⟩
    by_cases hc : pyGet s.initial k = v
    · simp [hc] at hop
    · simp only [hc, if_false, Option.some.injEq] at hop
      exact ⟨k, v, hmem, hc, hop.symm⟩
  · rintro ⟨k, v, hmem, hne, rfl⟩
    exact ⟨(k, v), hmem, by simp [hne]⟩

/-- The backend statements of a non-empty relational save: the session-row
update or insert, the child-row delete for removed keys, the merges for
changed or new pairs, then a single commit. -/
theorem sql_save_ops_shape (self : SqlIface) (session : ServerSideSession)
    (saved : Option Nat) (newRowId : Nat) (cookie : CookieCfg)
    (now lifetime : Nat) (dumps1 : PyVal → String) (sign : String → String)
    (h : session.data.isEmpty = false) :
    (self.save_session session saved newRowId cookie now lifetime dumps1
        sign).backendOps =
      (match saved with
       | some rid => [SqlOp.updateExpiry rid
           (get_expiration_time now lifetime session)]
       | Option.none => [SqlOp.insertSessionRow (self.keyPfx ++ session.sid)
           (get_expiration_time now lifetime session)])
      ++ [SqlOp.deleteDataRows (saved.getD newRowId) (removedKeys session)]
      ++ sqlDataWrites session (saved.getD newRowId) dumps1
      ++ [SqlOp.commit] := by
  unfold SqlIface.save_session
  simp [h]

/-- Core facts about a relational save's statement list, for any head
segment `A` that contains no merge and no commit: the removed-keys delete
is present, unchanged pairs produce no merge, changed or new pairs produce
their merge, and there is exactly one commit, at the end. -/
theorem sql_ops_core (A : List SqlOp) (rowId : Nat)
    (session : ServerSideSession) (dumps1 : PyVal → String)
    (hA : ∀ op ∈ A, (∀ k b, op ≠ SqlOp.mergeDataRow rowId k b) ∧
      op ≠ SqlOp.commit)
    (hnd : (dictKeys session.data).Nodup) :
    (SqlOp.deleteDataRows rowId (removedKeys session) ∈
      (A ++ [SqlOp.deleteDataRows rowId (removedKeys session)]
        ++ sqlDataWrites session rowId dumps1 ++ [SqlOp.commit])) ∧
    (∀ k v, (k, v) ∈ session.data → pyGet session.initial k = v →
      ∀ b, ¬ SqlOp.mergeDataRow rowId k b ∈
        (A ++ [SqlOp.deleteDataRows rowId (removedKeys session)]
          ++ sqlDataWrites session rowId dumps1 ++ [SqlOp.commit])) ∧
    (∀ k v, (k, v) ∈ session.data → pyGet session.initial k ≠ v →
      SqlOp.mergeDataRow rowId k (dumps1 v) ∈
        (A ++ [SqlOp.deleteDataRows rowId (removedKeys session)]
          ++ sqlDataWrites session rowId dumps1 ++ [SqlOp.commit])) ∧
    List.count SqlOp.commit
        (A ++ [SqlOp.deleteDataRows rowId (removedKeys session)]
          ++ sqlDataWrites session rowId dumps1 ++ [SqlOp.commit]) = 1 ∧
    (A ++ [SqlOp.deleteDataRows rowId (removedKeys session)]
      ++ sqlDataWrites session rowId dumps1 ++ [SqlOp.commit]).getLast? =
      some SqlOp.commit := by
  refine ⟨?_, ?_, ?_, ?_, ?_⟩
  · exact List.mem_append_left _ (List.mem_append_left _
      (List.mem_append_right _ (by simp)))
  · intro k v hmem hsame b hin
    simp only [List.mem_append, List.mem_singleton] at hin
    rcases hin with ((hin | hin) | hin) | hin
    · exact ((hA _ hin).1 k b) rfl
    · exact SqlOp.noConfusion hin
    · rw [mem_sqlDataWrites] at hin
      obtain ⟨k', v', hmem', hne', heq⟩ := hin
      injection heq with h1 h2 h3
      subst h2
      have hv : v' = v := dict_nodup_val_eq session.data hnd hmem' hmem
      exact hne' (hv ▸ hsame)
    · exact SqlOp.noConfusion hin
  · intro k v hmem hne
    exact List.mem_append_left _ (List.mem_append_right _
      ((mem_sqlDataWrites session rowId dumps1 _).mpr
        ⟨k, v, hmem, hne, rfl⟩))
  · have hA0 : List.count SqlOp.commit A = 0 :=
      List.count_eq_zero.mpr (fun h => (hA _ h).2 rfl)
    have hW0 : List.count SqlOp.commit
        (sqlDataWrites session rowId dumps1) = 0 := by
      refine List.count_eq_zero.mpr (fun h => ?_)
      rw [mem_sqlDataWrites] at h
      obtain ⟨k, v, _, _, heq⟩ := h
      exact SqlOp.noConfusion heq
    simp [List.count_append, hA0, hW0]
  · exact List.getLast?_concat _

/-- C5: a non-empty relational save deletes child rows for exactly the
keys in `initial` but not in the current mapping, writes no merge for a
key whose value is unchanged, merges every key whose value changed or is
new, and issues exactly one commit, at the end of the statement list. -/
theorem sql_save_diff (self : SqlIface) (session : ServerSideSession)
    (saved : Option Nat) (newRowId : Nat) (cookie : CookieCfg)
    (now lifetime : Nat) (dumps1 : PyVal → String) (sign : String → String)
    (hne : session.data.isEmpty = false)
    (hnd : (dictKeys session.data).Nodup) :
    (SqlOp.deleteDataRows (saved.getD newRowId) (removedKeys session) ∈
        (self.save_session session saved newRowId cookie now lifetime dumps1
          sign).backendOps ∧
      ∀ k, k ∈ removedKeys session ↔
        (k ∈ dictKeys session.initial ∧ ¬ k ∈ dictKeys session.data)) ∧
    (∀ k v, (k, v) ∈ session.data → pyGet session.initial k = v →
      ∀ b, ¬ SqlOp.mergeDataRow (saved.getD newRowId) k b ∈
        (self.save_session session saved newRowId cookie now lifetime dumps1
          sign).backendOps) ∧
    (∀ k v, (k, v) ∈ session.data → pyGet session.initial k ≠ v →
      SqlOp.mergeDataRow (saved.getD newRowId) k (dumps1 v) ∈
        (self.save_session session saved newRowId cookie now lifetime dumps1
          sign).backendOps) ∧
    List.count SqlOp.commit
        (self.save_session session saved newRowId cookie now lifetime dumps1
          sign).backendOps = 1 ∧
    ((self.save_session session saved newRowId cookie now lifetime dumps1
        sign).backendOps).getLast? = some SqlOp.commit := by
  have hshape := sql_save_ops_shape self session saved newRowId cookie now
    lifetime dumps1 sign hne
  rcases saved with _ | rid
  · simp only [Option.getD_none] at hshape ⊢
    rw [hshape]
    have hcore := sql_ops_core
      [SqlOp.insertSessionRow (self.keyPfx ++ session.sid)
        (get_expiration_time now lifetime session)]
      newRowId session dumps1
      (by
        intro op hop
        simp only [List.mem_singleton] at hop
        subst hop
        exact ⟨fun k b => SqlOp.noConfusion, SqlOp.noConfusion⟩)
      hnd
    exact ⟨⟨hcore.1, fun k => mem_removedKeys session k⟩, hcore.2.1,
      hcore.2.2.1, hcore.2.2.2.1, hcore.2.2.2.2⟩
  · simp only [Option.getD_some] at hshape ⊢
    rw [hshape]
    have hcore := sql_ops_core
      [SqlOp.updateExpiry rid (get_expiration_time now lifetime session)]
      rid session dumps1
      (by
        intro op hop
        simp only [List.mem_singleton] at hop
        subst hop
        exact ⟨fun k b => SqlOp.noConfusion, SqlOp.noConfusion⟩)
      hnd
    exact ⟨⟨hcore.1, fun k => mem_removedKeys session k⟩, hcore.2.1,
      hcore.2.2.1, hcore.2.2.2.1, hcore.2.2.2.2⟩

/-- The spec's relational-diff example: an existing row with
`initial = [a: 1, b: 2]` and current mapping `[a: 1, c: 3]`. -/
def sessC5 : ServerSideSession :=
  { data := [("a", PyVal.int 1), ("c", PyVal.int 3)]
    sid := "abc"
    permanent := false
    modified := true
    initial := [("a", PyVal.int 1), ("b", PyVal.int 2)] }

/-- Witness for C5 at the spec's example (existing session row with
internal id 7): the save deletes child row `b`, never merges row `a`,
merges row `c`, and commits exactly once, at the end. -/
theorem sql_save_diff_witness :
    (SqlOp.deleteDataRows 7 ["b"] ∈
      (SqlIface.save_session ⟨"session:", false, true⟩ sessC5 (some 7) 9
        cookieFix 0 60 dumps1Fix signFix).backendOps) ∧
    (¬ SqlOp.mergeDataRow 7 "a" "anything" ∈
      (SqlIface.save_session ⟨"session:", false, true⟩ sessC5 (some 7) 9
        cookieFix 0 60 dumps1Fix signFix).backendOps) ∧
    (SqlOp.mergeDataRow 7 "c" (dumps1Fix (PyVal.int 3)) ∈
      (SqlIface.save_session ⟨"session:", false, true⟩ sessC5 (some 7) 9
        cookieFix 0 60 dumps1Fix signFix).backendOps) ∧
    List.count SqlOp.commit
      (SqlIface.save_session ⟨"session:", false, true⟩ sessC5 (some 7) 9
        cookieFix 0 60 dumps1Fix signFix).backendOps = 1 ∧
    ((SqlIface.save_session ⟨"session:", false, true⟩ sessC5 (some 7) 9
        cookieFix 0 60 dumps1Fix signFix).backendOps).getLast? =
      some SqlOp.commit := by
  have h := sql_save_diff ⟨"session:", false, true⟩ sessC5 (some 7) 9
    cookieFix 0 60 dumps1Fix signFix rfl (by decide)
  have hrk : removedKeys sessC5 = ["b"] := by decide
  exact ⟨hrk ▸ h.1.1,
    h.2.1 "a" (PyVal.int 1) (by decide) (by decide) "anything",
    h.2.2.1 "c" (PyVal.int 3) (by decide) (by decide),
    h.2.2.2.1, h.2.2.2.2⟩

/-- C6: a TTL above 30 days (2592000 s) is converted to the absolute Unix
timestamp `t + now` (hence never earlier than the current time), while any
TTL at or below 30 days is passed through unchanged; in particular a
40-day TTL (3456000 s) yields `3456000 + now ≥ now`. -/
theorem memcache_timeout_conversion (now : Nat) (t : Int) :
    (t > 2592000 →
      MemcachedIface._get_memcache_timeout now t = t + now ∧
      MemcachedIface._get_memcache_timeout now t ≥ (now : Int)) ∧
    (t ≤ 2592000 → MemcachedIface._get_memcache_timeout now t = t) ∧
    MemcachedIface._get_memcache_timeout now 3456000 = 3456000 + now ∧
    MemcachedIface._get_memcache_timeout now 3456000 ≥ (now : Int) := by
  unfold MemcachedIface._get_memcache_timeout
  refine ⟨?_, ?_, by norm_num, by norm_num⟩
  · intro h
    rw [if_pos h]
    omega
  · intro h
    rw [if_neg (by omega)]

/-- Witness for C6 at concrete inputs (`now = 1000`): a 40-day TTL becomes
the absolute timestamp 3457000 and a 1-hour TTL passes through as 3600. -/
theorem memcache_timeout_conversion_witness :
    (MemcachedIface._get_memcache_timeout 1000 3456000 = 3456000 + 1000 ∧
      MemcachedIface._get_memcache_timeout 1000 3456000 ≥ (1000 : Int)) ∧
    MemcachedIface._get_memcache_timeout 1000 3600 = 3600 :=
  ⟨(memcache_timeout_conversion 1000 3456000).1 (by decide),
   (memcache_timeout_conversion 1000 3600).2.1 (by decide)⟩

/-- C7: when the MongoDB lookup finds a document whose `expiration` is at
or before the current time, `open_session` removes the document from the
store as a side effect of the read and returns an empty record bound to
the same sid, exactly as if the record were absent. -/
theorem mongo_open_lazy_expiry (self : MongoIface) (sid : String)
    (unsign : String → Option String) (freshSid : String)
    (store : String → Option MongoDoc) (loads : String → Option PyDict)
    (now : Nat) (doc : MongoDoc)
    (hne : sid ≠ "") (hsig : self.use_signer = false)
    (hdoc : store (self.keyPfx ++ sid) = some doc)
    (hexp : doc.expiration ≤ now) :
    self.open_session (some sid) unsign freshSid store loads now =
      { session := ServerSideSession.init Option.none sid
          (some self.permanent),
        storeOps := [MongoOp.remove (self.keyPfx ++ sid)] } ∧
    (self.open_session (some sid) unsign freshSid store loads
        now).session.data = [] ∧
    (self.open_session (some sid) unsign freshSid store loads
        now).session.sid = sid := by
  have hmain : self.open_session (some sid) unsign freshSid store loads now =
      { session := ServerSideSession.init Option.none sid
          (some self.permanent),
        storeOps := [MongoOp.remove (self.keyPfx ++ sid)] } := by
    unfold MongoIface.open_session MongoIface.lookupSid
    simp [hne, hsig, hdoc, hexp]
  refine ⟨hmain, ?_, ?_⟩
  · rw [hmain]
    rfl
  · rw [hmain]
    rfl


/-- Witness for C7 at concrete inputs: a document that expired at time 50,
read at time 100, is removed from the store and the request receives an
empty record under the original sid `abc`. -/
theorem mongo_open_lazy_expiry_witness :
    MongoIface.open_session ⟨"session:", false, true⟩ (some "abc")
        (fun s => some s) "fresh"
        (fun _ => some ⟨"session:abc", "blob", 50⟩)
        (fun _ => some [("a", PyVal.int 1)]) 100 =
      { session := ServerSideSession.init Option.none "abc" (some true),
        storeOps := [MongoOp.remove "session:abc"] } :=
  (mongo_open_lazy_expiry ⟨"session:", false, true⟩ "abc" (fun s => some s)
    "fresh" (fun _ => some ⟨"session:abc", "blob", 50⟩)
    (fun _ => some [("a", PyVal.int 1)]) 100 ⟨"session:abc", "blob", 50⟩
    (by decide) rfl rfl (by decide)).1

/-- C8: with no backend selected (`SESSION_TYPE` absent from the
configuration), `Session.get_interface` defaults the selector to
`"memcached"` and constructs the Memcached interface, not the Null
interface its own docstring promises. -/
theorem get_interface_default_not_null :
    Session.get_interface
        ⟨Option.none, Option.none, Option.none, Option.none, Option.none⟩
        "/cwd/flask_session" = IfaceKind.memcached "session:" ∧
    Session.get_interface
        ⟨Option.none, Option.none, Option.none, Option.none, Option.none⟩
        "/cwd/flask_session" ≠ IfaceKind.null := by
  constructor
  · rfl
  · decide

/-- C9 counterexample: constructing the interface with signing enabled and
no secret configured succeeds — `__init__` never consults the secret, so
no error can be raised at construction time. -/
theorem redis_init_no_secret_succeeds :
    RedisIface.init "session:" true true =
      Except.ok { keyPfx := "session:", use_signer := true,
                  permanent := true } := by
  rfl

/-- C9 (amended): the missing-secret error is deferred to request
handling: interface construction always succeeds, while `_get_signer` —
hence the first `_unsign` or `_sign` during a request — fails with the
missing-secret `KeyError` whenever no secret (or an empty one) is
configured. -/
theorem missing_secret_raised_at_use (keyPfx : String)
    (use_signer permanent : Bool) (token : String)
    (unsign : String → Option String) :
    (∃ i, RedisIface.init keyPfx use_signer permanent = Except.ok i) ∧
    SessionIface._get_signer Option.none =
      Except.error SessionError.missingSecretKey ∧
    SessionIface._get_signer (some "") =
      Except.error SessionError.missingSecretKey ∧
    SessionIface._unsign Option.none unsign token =
      Except.error SessionError.missingSecretKey := by
  refine ⟨⟨{ keyPfx := keyPfx, use_signer := use_signer,
             permanent := permanent }, rfl⟩, rfl, rfl, rfl⟩


/-- The session refuting C5 as frozen: key `k` is new (absent from
`initial`) but bound to Python `None`. -/
def sessC5none : ServerSideSession :=
  { data := [("k", PyVal.none)]
    sid := "abc"
    permanent := false
    modified := true
    initial := [] }

/-- C5 counterexample: for a new key bound to `None`, the relational save
emits no merge at all — `session.initial.get("k")` returns `None`, which
compares equal to the value, so line 615 skips the pair — although the
claim requires every new key to be written.  The full statement list is
just the expiry update, an empty removed-keys delete, and the commit. -/
theorem sql_save_new_none_not_written :
    (("k", PyVal.none) ∈ sessC5none.data ∧
      ¬ "k" ∈ dictKeys sessC5none.initial) ∧
    (SqlIface.save_session ⟨"session:", false, true⟩ sessC5none (some 7) 9
        cookieFix 0 60 dumps1Fix signFix).backendOps =
      [SqlOp.updateExpiry 7 Option.none, SqlOp.deleteDataRows 7 [],
       SqlOp.commit] := by
  refine ⟨⟨?_, ?_⟩, ?_⟩
  · decide
  · decide
  · rfl

/-- Truthiness of a Python value (`bool(v)`). -/
def PyVal.truthy : PyVal → Bool
  | PyVal.none => false
  | PyVal.bool b => b
  | PyVal.int n => decide (¬ n = 0)
  | PyVal.str s => decide (¬ s = "")

/-- Models the `flask.sessions.SessionMixin.permanent` getter over a
record's mapping: `self.get("_permanent", False)`, read for truthiness. -/
def mixinPermanent (data : PyDict) : Bool :=
  ((assocGet data "_permanent").getD (PyVal.bool false)).truthy

/-- Models the `SessionMixin.permanent` setter: stores `bool(value)`
under the `"_permanent"` key of the mapping itself. -/
def mixinSetPermanent (data : PyDict) (value : Bool) : PyDict :=
  assocSet data "_permanent" (PyVal.bool value)

/-- Dict-backed faithful model of `ServerSideSession` for claims whose
truth depends on how the `permanent` flag is represented: in the code the
flag is not a separate field but Flask's `SessionMixin.permanent`
property over the `"_permanent"` entry of the mapping itself, so it is
serialized together with the data on save and restored from the loaded
blob on open. -/
structure ServerSideSessionDict where
  data : PyDict
  sid : String
  modified : Bool
  initial : PyDict
  deriving DecidableEq, Repr

/-- Faithful `ServerSideSession.__init__` (`sessions.py` lines 32-41):
the mapping starts as the initial argument; when the `permanent` argument
is truthy, `self.permanent = permanent` stores `"_permanent": True` into
the mapping through the mixin setter; `modified` is assigned `False`
afterwards (line 40), and `initial` deep-copies the constructor argument
(line 41), not the mapping updated by the setter. -/
def ServerSideSessionDict.init (initial : Option PyDict) (sid : String)
    (permanent : Option Bool) : ServerSideSessionDict :=
  { data :=
      if permanent.getD false then
        mixinSetPermanent (initial.getD []) true
      else initial.getD []
    sid := sid
    modified := false
    initial := initial.getD [] }

/-- The record's `permanent` flag under the dict-backed model: the mixin
getter over the current mapping. -/
def ServerSideSessionDict.permanent (s : ServerSideSessionDict) : Bool :=
  mixinPermanent s.data

/-- `get_expiration_time` over the dict-backed model: absolute expiry
`now + permanent_session_lifetime` for a permanent session, `None`
(session-scoped cookie) otherwise. -/
def get_expiration_time_dict (now lifetime : Nat)
    (s : ServerSideSessionDict) : Option Nat :=
  if s.permanent then some (now + lifetime) else Option.none

/-- Result of the dict-backed `open_session`: the record plus the backend
keys read. -/
structure OpenResultDict where
  session : ServerSideSessionDict
  reads : List String
  deriving DecidableEq, Repr

/-- The backend-lookup tail of `open_session` (`sessions.py` lines
132-139) over the dict-backed record model. -/
def RedisIface.lookupSidDict (self : RedisIface) (sid : String)
    (store : String → Option String) (loads : String → Option PyDict) :
    OpenResultDict :=
  let key := self.keyPfx ++ sid
  match store key with
  | some val =>
      match loads val with
      | some data =>
          { session := ServerSideSessionDict.init (some data) sid
              Option.none,
            reads := [key] }
      | Option.none =>
          { session := ServerSideSessionDict.init Option.none sid
              (some self.permanent),
            reads := [key] }
  | Option.none =>
      { session := ServerSideSessionDict.init Option.none sid
          (some self.permanent),
        reads := [key] }

/-- `RedisSessionInterface.open_session` (`sessions.py` lines 118-139)
over the dict-backed record model; the control flow is identical to
`RedisIface.open_session`, only the record construction differs. -/
def RedisIface.open_session_dict (self : RedisIface)
    (cookieVal : Option String) (unsign : String → Option String)
    (freshSid : String) (store : String → Option String)
    (loads : String → Option PyDict) :
    Except SessionError OpenResultDict :=
  match cookieVal with
  | Option.none =>
      Except.ok { session := ServerSideSessionDict.init Option.none
                    freshSid (some self.permanent),
                  reads := [] }
  | some sid0 =>
      if sid0 = "" then
        Except.ok { session := ServerSideSessionDict.init Option.none
                      freshSid (some self.permanent),
                    reads := [] }
      else if self.use_signer then
        match unsign sid0 with
        | Option.none =>
            Except.ok { session := ServerSideSessionDict.init Option.none
                          freshSid (some self.permanent),
                        reads := [] }
        | some sid => Except.ok (self.lookupSidDict sid store loads)
      else Except.ok (self.lookupSidDict sid0 store loads)

/-- C10 counterexample: a fresh record under the permanent configuration
carries `"_permanent": True` inside its mapping (which save serializes
with `pickle.dumps(dict(session))`), and opening a blob holding exactly
that mapping yields a loaded record whose `permanent` flag is true with
an absolute cookie expiry — not false and session-scoped as claimed. -/
theorem redis_open_loaded_permanent_true :
    ((ServerSideSessionDict.init Option.none "abc" (some true)).data =
      [("_permanent", PyVal.bool true)]) ∧
    (RedisIface.open_session_dict ⟨"session:", false, true⟩ (some "abc")
        (fun s => some s) "fresh" (fun _ => some "blob")
        (fun _ => some [("_permanent", PyVal.bool true)]) =
      Except.ok { session := ServerSideSessionDict.init
                    (some [("_permanent", PyVal.bool true)]) "abc"
                    Option.none,
                  reads := ["session:abc"] }) ∧
    (ServerSideSessionDict.init (some [("_permanent", PyVal.bool true)])
      "abc" Option.none).permanent = true ∧
    get_expiration_time_dict 0 60
      (ServerSideSessionDict.init
        (some [("_permanent", PyVal.bool true)]) "abc" Option.none) =
      some 60 := by
  refine ⟨rfl, ?_, rfl, rfl⟩
  rfl

/-- C10 (amended): a record loaded on the Found path is constructed
without the `permanent` argument, so its flag is not taken from the
configured setting but from the loaded mapping's `"_permanent"` entry —
false (session-scoped expiry) exactly when that entry is absent or falsy,
true (absolute expiry) when the blob carries a truthy entry, as blobs
saved under a permanent configuration do; fresh records receive the
configured flag through the constructor argument. -/
theorem redis_open_loaded_permanent_from_blob (self : RedisIface)
    (sid : String) (unsign : String → Option String) (freshSid : String)
    (store : String → Option String) (loads : String → Option PyDict)
    (d : PyDict) (v : String) (now lifetime : Nat)
    (hne : sid ≠ "") (hsig : self.use_signer = false)
    (hhit : store (self.keyPfx ++ sid) = some v)
    (hload : loads v = some d) :
    (self.open_session_dict (some sid) unsign freshSid store loads =
      Except.ok { session := ServerSideSessionDict.init (some d) sid
                    Option.none,
                  reads := [self.keyPfx ++ sid] }) ∧
    (ServerSideSessionDict.init (some d) sid Option.none).permanent =
      mixinPermanent d ∧
    (mixinPermanent d = false →
      get_expiration_time_dict now lifetime
        (ServerSideSessionDict.init (some d) sid Option.none) =
        Option.none) ∧
    (mixinPermanent d = true →
      get_expiration_time_dict now lifetime
        (ServerSideSessionDict.init (some d) sid Option.none) =
        some (now + lifetime)) ∧
    (ServerSideSessionDict.init Option.none freshSid
      (some self.permanent)).permanent = self.permanent := by
  have hperm : (ServerSideSessionDict.init (some d) sid
      Option.none).permanent = mixinPermanent d := rfl
  refine ⟨?_, hperm, ?_, ?_, ?_⟩
  · unfold RedisIface.open_session_dict RedisIface.lookupSidDict
    simp [hne, hsig, hhit, hload]
  · intro h
    unfold get_expiration_time_dict
    rw [hperm, h]
    rfl
  · intro h
    unfold get_expiration_time_dict
    rw [hperm, h]
    rfl
  · cases hb : self.permanent <;> rfl

/-- Witness for C10 (amended) at concrete inputs under the permanent
configuration: a loaded blob without a `"_permanent"` entry yields a
non-permanent record with a session-scoped expiry, while the fresh record
of the same interface is permanent. -/
theorem redis_open_loaded_permanent_from_blob_witness :
    (RedisIface.open_session_dict ⟨"session:", false, true⟩ (some "abc")
        (fun s => some s) "fresh" (fun _ => some "blob")
        (fun _ => some [("a", PyVal.int 1)]) =
      Except.ok { session := ServerSideSessionDict.init
                    (some [("a", PyVal.int 1)]) "abc" Option.none,
                  reads := ["session:abc"] }) ∧
    get_expiration_time_dict 0 60
      (ServerSideSessionDict.init (some [("a", PyVal.int 1)]) "abc"
        Option.none) = Option.none ∧
    (ServerSideSessionDict.init Option.none "fresh"
      (some true)).permanent = true :=
  have h := redis_open_loaded_permanent_from_blob
    ⟨"session:", false, true⟩ "abc" (fun s => some s) "fresh"
    (fun _ => some "blob") (fun _ => some [("a", PyVal.int 1)])
    [("a", PyVal.int 1)] "blob" 0 60 (by decide) rfl rfl rfl
  ⟨h.1, h.2.2.1 rfl, h.2.2.2.2⟩
